import Mathlib

/-
Verification of the APIHelper request facilitator (src/index.js).

The JavaScript class is embedded shallowly:
* JS objects used as header maps become association lists with first-match
  lookup; Object.assign and property assignment become executable functions
  on those lists.
* The synchronous phase of request (lines 50-85) becomes a pure function
  from the instance state, the per-call options and the body to either a
  rejection (the try/catch of lines 55-84) or the descriptor handed to
  http(s).request together with the body written on the wire.
* The response callbacks (lines 63-73) become a step function over a list of
  stream events, with single-settlement promise semantics.
* For the aliasing-free claims, Object.assign and the constructor are also
  modelled against an explicit object store in which references are indices,
  so that mutation of a target object is observable.
-/

/-- Header values as they occur in the JS header objects: strings supplied by
callers and the number the code itself stores under Content-Length. -/
inductive HVal where
  | str (s : String)
  | num (n : Nat)
  deriving DecidableEq

/-- A JS object used as a string-keyed map, in property-creation order. -/
abbrev HeaderMap := List (String × HVal)

/-- JS property read `o[k]`: first matching key, since a JS object holds each
key at most once. -/
def objGet : HeaderMap → String → Option HVal
  | [], _ => none
  | (k', v) :: t, k => if k' = k then some v else objGet t k

/-- JS property write `o[k] = v`: overwrites the entry in place or appends a
new one. -/
def objSet : HeaderMap → String → HVal → HeaderMap
  | [], k, v => [(k, v)]
  | (k', v') :: t, k, v => if k' = k then (k, v) :: t else (k', v') :: objSet t k v

/-- `Object.assign(target, source)` restricted to its effect on the target:
every source entry is written into the target, in order. -/
def objAssign (target : HeaderMap) : HeaderMap → HeaderMap
  | [] => target
  | (k, v) :: t => objAssign (objSet target k v) t

/-- JS `delete o[k]` (line 40). -/
def objDelete : HeaderMap → String → HeaderMap
  | [], _ => []
  | (k', v) :: t, k => if k' = k then objDelete t k else (k', v) :: objDelete t k

/-- JS `String.length`: the number of UTF-16 code units, two for the
code points beyond the basic plane. This is what line 62 stores under
Content-Length. -/
def jsLength (s : String) : Nat :=
  s.data.foldl (fun n c => n + (if 0x10000 ≤ c.toNat then 2 else 1)) 0

/-- The number of UTF-8 bytes of a string: what Node actually transmits for
`request.write(data)` with the default encoding. -/
def utf8Length (s : String) : Nat :=
  s.data.foldl
    (fun n c =>
      n + (if c.toNat < 0x80 then 1
           else if c.toNat < 0x800 then 2
           else if c.toNat < 0x10000 then 3 else 4)) 0

/-- Structured JSON values, the non-string bodies accepted by request. -/
inductive Json where
  | null
  | bool (b : Bool)
  | num (n : Int)
  | str (s : String)
  | arr (elems : List Json)
  | obj (fields : List (String × Json))

/-- Concatenation of a list of strings. -/
def strConcat : List String → String
  | [] => ""
  | s :: t => s ++ strConcat t

/-- One hexadecimal digit, for JSON control-character escapes. -/
def hexDigit (n : Nat) : Char :=
  if n < 10 then Char.ofNat (48 + n) else Char.ofNat (87 + n)

/-- JSON.stringify escaping of one character inside a string literal:
quote, backslash and control characters are escaped, everything else
(non-ASCII included) is kept verbatim. -/
def escapeChar (c : Char) : String :=
  if c = '"' then "\\\""
  else if c = '\\' then "\\\\"
  else if c = '\n' then "\\n"
  else if c = '\r' then "\\r"
  else if c = '\t' then "\\t"
  else if c = '\x08' then "\\b"
  else if c = '\x0c' then "\\f"
  else if c.toNat < 0x20 then
    "\\u00" ++ String.mk [hexDigit (c.toNat / 16), hexDigit (c.toNat % 16)]
  else String.mk [c]

/-- A JSON string literal as JSON.stringify prints it. -/
def quoteJson (s : String) : String :=
  "\"" ++ strConcat (s.data.map escapeChar) ++ "\""

mutual

/-- JSON.stringify on structured values. -/
def stringify : Json → String
  | .null => "null"
  | .bool true => "true"
  | .bool false => "false"
  | .num n => toString n
  | .str s => quoteJson s
  | .arr es => "[" ++ stringifyElems es ++ "]"
  | .obj fs => "\x7b" ++ stringifyFields fs ++ "\x7d"

/-- Comma-separated serialization of array elements. -/
def stringifyElems : List Json → String
  | [] => ""
  | [e] => stringify e
  | e :: e' :: t => stringify e ++ "," ++ stringifyElems (e' :: t)

/-- Comma-separated serialization of object fields. -/
def stringifyFields : List (String × Json) → String
  | [] => ""
  | [(k, v)] => quoteJson k ++ ":" ++ stringify v
  | (k, v) :: f :: t => quoteJson k ++ ":" ++ stringify v ++ "," ++ stringifyFields (f :: t)

end

/-- A request body: the `data` argument is either a string or a structured
value (the source default is the empty string). -/
inductive Body where
  | str (s : String)
  | jsonVal (j : Json)

/-- Lines 51-53: a structured body is replaced by its JSON serialization, a
string body is kept as is. -/
def serializeBody : Body → String
  | .str s => s
  | .jsonVal j => stringify j

/-- JS truthiness of a possibly-undefined string: undefined and the empty
string are falsy, every other string is truthy. -/
def jsTruthy : Option String → Bool
  | none => false
  | some s => s ≠ ""

/-- JS `a || b` on possibly-undefined strings: the first operand when it is
truthy, otherwise the second (lines 57-58). -/
def jsOrStr (a b : Option String) : Option String :=
  if jsTruthy a then a else b

/-- The transport module picked on line 57. -/
inductive Transport where
  | http
  | https
  deriving DecidableEq

/-- The five verbs accepted on line 61. -/
def httpMethods : List String := ["GET", "POST", "PATCH", "PUT", "DELETE"]

/-- Line 61: the caller's method when it is one of the five verbs, otherwise
GET (an absent method is also coerced to GET). -/
def effectiveMethod : Option String → String
  | none => "GET"
  | some m => if httpMethods.contains m then m else "GET"

/-- Line 60: a slash is prepended exactly when the first character is not a
slash; for the empty string `path[0]` is undefined in JS, which also differs
from the slash character. -/
def effectivePath (p : String) : String :=
  (if p.data.head? ≠ some '/' then "/" else "") ++ p

/-- The first argument of the outer Object.assign on line 62: the empty map
when the raw `requestOptions.method` is literally GET, otherwise a map with
Content-Length bound to `data.length` (UTF-16 code units). -/
def baseHeaders (method : Option String) (dataStr : String) : HeaderMap :=
  if method = some "GET" then [] else [("Content-Length", HVal.num (jsLength dataStr))]

/-- Line 62: `Object.assign(Object.assign(base, this.headers),
requestOptions.headers)`. -/
def resolvedHeaders (base instH callH : HeaderMap) : HeaderMap :=
  objAssign (objAssign base instH) callH

/-- Line 57: https exactly when the truthy resolution of the two protocol
fields is the string https. -/
def transportOf (optProtocol instProtocol : Option String) : Transport :=
  if jsOrStr optProtocol instProtocol = some "https" then .https else .http

/-- Lines 78-80: the body is written exactly when the raw
`requestOptions.method` is not literally GET. -/
def writtenBody (method : Option String) (dataStr : String) : Option String :=
  if method = some "GET" then none else some dataStr

/-- The per-call options object, with undefined fields as `none`. -/
structure RequestOptions where
  protocol : Option String
  hostname : Option String
  port : Option String
  path : Option String
  method : Option String
  headers : Option HeaderMap
  deriving DecidableEq

/-- The instance-default connection options used by request: protocol and
hostname (lines 57-58). -/
structure InstanceOptions where
  protocol : Option String
  hostname : Option String
  deriving DecidableEq

/-- The state of one APIHelper instance: its header map and its default
connection options (lines 17-18). -/
structure Instance where
  headers : HeaderMap
  requestOptions : InstanceOptions
  deriving DecidableEq

/-- The error thrown while the descriptor is built: reading `path[0]` of an
undefined path is a TypeError. -/
inductive JSError where
  | typeError
  deriving DecidableEq

/-- The options object handed to http(s).request on lines 57-62, plus the
transport module choice. -/
structure Descriptor where
  transport : Transport
  hostname : Option String
  port : Option String
  path : String
  method : String
  headers : HeaderMap
  deriving DecidableEq

/-- Lines 57-62: the request descriptor. An undefined path makes
`requestOptions.path[0]` throw before anything is sent. -/
def buildDescriptor (inst : Instance) (opts : RequestOptions) (dataStr : String) :
    Except JSError Descriptor :=
  match opts.path with
  | none => .error .typeError
  | some p => .ok
      { transport := transportOf opts.protocol inst.requestOptions.protocol,
        hostname := jsOrStr opts.hostname inst.requestOptions.hostname,
        port := opts.port,
        path := effectivePath p,
        method := effectiveMethod opts.method,
        headers := resolvedHeaders (baseHeaders opts.method dataStr) inst.headers
          ((opts.headers).getD []) }

/-- Outcome of the synchronous phase of request: either the caught throw,
already turned into a rejection (line 83), or the descriptor passed to the
transport together with the body written to the stream. -/
inductive SyncOutcome where
  | rejected (e : JSError)
  | sent (d : Descriptor) (body : Option String)
  deriving DecidableEq

namespace APIHelper

/-- Lines 39-41: deletes one header key. -/
def deleteHeader (inst : Instance) (key : String) : Instance :=
  { inst with headers := objDelete inst.headers key }

/-- Lines 27-32: an empty-string or undefined value delegates to
deleteHeader, any other string is stored. -/
def setHeader (inst : Instance) (key : String) (value : Option String) : Instance :=
  match value with
  | some "" => deleteHeader inst key
  | none => deleteHeader inst key
  | some v => { inst with headers := objSet inst.headers key (HVal.str v) }

/-- Lines 50-85, synchronous phase: serializes the body, builds the
descriptor and reports what is written on the wire; a throw is caught and
becomes a rejection. -/
def request (inst : Instance) (opts : RequestOptions) (data : Body) : SyncOutcome :=
  match buildDescriptor inst opts (serializeBody data) with
  | .error e => .rejected e
  | .ok d => .sent d (writtenBody opts.method (serializeBody data))

/-- Lines 94-96 and friends: `Object.assign({method: m}, requestOptions)`
keeps the caller's method when one is present, the verb `m` is only a
default. -/
def withDefaultMethod (m : String) (opts : RequestOptions) : RequestOptions :=
  { opts with method := some ((opts.method).getD m) }

/-- Lines 94-96. -/
def GET (inst : Instance) (opts : RequestOptions) (data : Body) : SyncOutcome :=
  request inst (withDefaultMethod "GET" opts) data

/-- Lines 105-107. -/
def POST (inst : Instance) (opts : RequestOptions) (data : Body) : SyncOutcome :=
  request inst (withDefaultMethod "POST" opts) data

/-- Lines 116-118. -/
def PATCH (inst : Instance) (opts : RequestOptions) (data : Body) : SyncOutcome :=
  request inst (withDefaultMethod "PATCH" opts) data

/-- Lines 127-129. -/
def PUT (inst : Instance) (opts : RequestOptions) (data : Body) : SyncOutcome :=
  request inst (withDefaultMethod "PUT" opts) data

/-- Lines 138-140. -/
def DELETE (inst : Instance) (opts : RequestOptions) (data : Body) : SyncOutcome :=
  request inst (withDefaultMethod "DELETE" opts) data

end APIHelper

/-- The method of a sent request, if one was sent. -/
def sentMethod : SyncOutcome → Option String
  | .sent d _ => some d.method
  | .rejected _ => none

/-- The body written to the stream of a sent request. -/
def sentBody : SyncOutcome → Option String
  | .sent _ w => w
  | .rejected _ => none

/-- One resolved header of a sent request. -/
def sentHeader (o : SyncOutcome) (k : String) : Option HVal :=
  match o with
  | .sent d _ => objGet d.headers k
  | .rejected _ => none

/-- The full resolved header map of a sent request. -/
def sentHeaders : SyncOutcome → Option HeaderMap
  | .sent d _ => some d.headers
  | .rejected _ => none

/-- A value delivered by resolve on line 72: the JSON.parse result when the
accumulated string parses, otherwise the raw string. -/
inductive ResVal where
  | json (j : Json)
  | str (s : String)

/-- Events emitted by the response stream, in arrival order. -/
inductive RespEvent where
  | data (chunk : String)
  | streamError (e : JSError)
  | streamEnd

/-- The settlement of the promise. -/
inductive Settled where
  | resolved (v : ResVal)
  | rejectedWith (e : JSError)

/-- State of the response handler: the accumulated string of line 64 and the
settlement, if any. -/
structure RespState where
  update : String
  settled : Option Settled

/-- A promise settles at most once; later settlement attempts are ignored. -/
def settleOnce (st : Option Settled) (s : Settled) : Option Settled :=
  match st with
  | some prev => some prev
  | none => some s

/-- Lines 69-72: JSON.parse replaces the accumulated string when it
succeeds, and a parse failure is swallowed; resolve always runs. The parse
function itself is the host library's JSON.parse, taken as a parameter. -/
def jsonOrRaw (parse : String → Option Json) (s : String) : ResVal :=
  match parse s with
  | some j => .json j
  | none => .str s

/-- Lines 63-73: the three stream callbacks as one step function. -/
def respStep (parse : String → Option Json) : RespState → RespEvent → RespState
  | st, .data c => { st with update := st.update ++ c }
  | st, .streamError e => { st with settled := settleOnce st.settled (.rejectedWith e) }
  | st, .streamEnd => { st with settled := settleOnce st.settled (.resolved (jsonOrRaw parse st.update)) }

/-- The settlement produced by running the response handler over a stream of
events, starting from the empty accumulator of line 64. -/
def processResponse (parse : String → Option Json) (events : List RespEvent) : Option Settled :=
  (events.foldl (respStep parse) { update := "", settled := none }).settled

/-
The store model: JS objects as entries of an explicit store, references as
indices. Object.assign mutates exactly its target entry, allocation appends
a fresh entry. This makes the claims about aliasing and non-mutation of the
instance state expressible.
-/

/-- A JS value stored in an object field. -/
inductive JSVal where
  | vstr (s : String)
  | vnum (n : Nat)
  | vref (r : Nat)
  | vundef
  deriving DecidableEq

/-- A JS object: fields in creation order. -/
abbrev HObj := List (String × JSVal)

/-- The object store; a reference is an index into it. -/
abbrev Store := List HObj

/-- Field read, undefined when the field is missing. -/
def getF : HObj → String → JSVal
  | [], _ => .vundef
  | (k', v) :: t, k => if k' = k then v else getF t k

/-- Field write: overwrites in place or appends. -/
def setF : HObj → String → JSVal → HObj
  | [], k, v => [(k, v)]
  | (k', v') :: t, k, v => if k' = k then (k, v) :: t else (k', v') :: setF t k v

/-- The fields of the source written into the target object, in order: the
pure part of Object.assign. -/
def assignFields (target : HObj) : HObj → HObj
  | [] => target
  | (k, v) :: t => assignFields (setF target k v) t

/-- Dereference; a dangling reference reads as the empty object. -/
def readObj : Store → Nat → HObj
  | [], _ => []
  | o :: _, 0 => o
  | _ :: σ, Nat.succ r => readObj σ r

/-- Replace the object a reference points at; out of range is a no-op. -/
def writeObj : Store → Nat → HObj → Store
  | [], _, _ => []
  | _ :: σ, 0, o => o :: σ
  | x :: σ, Nat.succ r, o => x :: writeObj σ r o

/-- Allocate a fresh object: its reference is the current store size. -/
def alloc (σ : Store) (o : HObj) : Nat × Store := (σ.length, σ ++ [o])

/-- Object.assign(target, source) in the store: only the target entry is
replaced. -/
def objAssignH (σ : Store) (target src : Nat) : Store :=
  writeObj σ target (assignFields (readObj σ target) (readObj σ src))

/-- The references held by one constructed instance. -/
structure InstRefs where
  headers : Nat
  requestOptions : Nat
  deriving DecidableEq

/-- Lines 16-19: `this.headers = Object.assign({}, headers)` then
`this.requestOptions = Object.assign({}, requestOptions)`; either argument
may be undefined, in which case Object.assign copies nothing. -/
def constructH (σ : Store) (requestOptionsRef headersRef : Option Nat) : InstRefs × Store :=
  let a1 := alloc σ []
  let σ2 := match headersRef with
    | some h => objAssignH a1.2 a1.1 h
    | none => a1.2
  let a2 := alloc σ2 []
  let σ4 := match requestOptionsRef with
    | some r0 => objAssignH a2.2 a2.1 r0
    | none => a2.2
  ({ headers := a1.1, requestOptions := a2.1 }, σ4)

/-- JS truthiness of a stored value. -/
def truthyV : JSVal → Bool
  | .vstr s => s ≠ ""
  | .vnum n => n ≠ 0
  | .vref _ => true
  | .vundef => false

/-- JS `a || b` on stored values. -/
def jsOrV (a b : JSVal) : JSVal := if truthyV a then a else b

/-- Line 61 on a stored method value: non-string values are never among the
five verbs, so they also coerce to GET. -/
def effectiveMethodV : JSVal → String
  | .vstr m => if httpMethods.contains m then m else "GET"
  | _ => "GET"

/-- The base header object of line 62 in the store model. -/
def baseObjH (σ : Store) (optsRef : Nat) (dataStr : String) : HObj :=
  if getF (readObj σ optsRef) "method" = .vstr "GET" then []
  else [("Content-Length", JSVal.vnum (jsLength dataStr))]

/-- The inner Object.assign of line 62: the freshly allocated base object
(reference `σ.length`) receives the instance's default headers. -/
def mergedStep1 (σ : Store) (inst : InstRefs) (optsRef : Nat) (dataStr : String) : Store :=
  objAssignH (σ ++ [baseObjH σ optsRef dataStr]) σ.length inst.headers

/-- The outer Object.assign of line 62: the same fresh object also receives
`requestOptions.headers` when that field holds an object; a non-object
source copies nothing. -/
def mergedHeadersStore (σ : Store) (inst : InstRefs) (optsRef : Nat) (dataStr : String) : Store :=
  match getF (readObj (mergedStep1 σ inst optsRef dataStr) optsRef) "headers" with
  | .vref hr => objAssignH (mergedStep1 σ inst optsRef dataStr) σ.length hr
  | _ => mergedStep1 σ inst optsRef dataStr

/-- The object literal of lines 57-62, whose headers field refers to the
merged header object `b`. Hostname, port, path and method are read before
the header merge runs, in JS field-evaluation order. -/
def descObjH (σ : Store) (inst : InstRefs) (optsRef : Nat) (p : String) (b : Nat) : HObj :=
  [("hostname", jsOrV (getF (readObj σ optsRef) "hostname")
      (getF (readObj σ inst.requestOptions) "hostname")),
   ("port", getF (readObj σ optsRef) "port"),
   ("path", JSVal.vstr (effectivePath p)),
   ("method", JSVal.vstr (effectiveMethodV (getF (readObj σ optsRef) "method"))),
   ("headers", JSVal.vref b)]

/-- Lines 57-62 in the store model: on a string path, allocate the base
header object, run the two assigns into it, then allocate the descriptor;
on a path without a first character the TypeError of line 60 is thrown
before anything is allocated. -/
def buildDescriptorH (σ : Store) (inst : InstRefs) (optsRef : Nat) (dataStr : String) :
    Except JSError Nat × Store :=
  match getF (readObj σ optsRef) "path" with
  | .vstr p =>
      (.ok (mergedHeadersStore σ inst optsRef dataStr).length,
       mergedHeadersStore σ inst optsRef dataStr ++ [descObjH σ inst optsRef p σ.length])
  | _ => (.error .typeError, σ)

/-- Lines 94-96 in the store model: the wrapper allocates the fresh
`{method: m}` object and copies the caller's options into it; the caller's
object is only read. -/
def wrapperOptionsH (σ : Store) (m : String) (optsRef : Nat) : Nat × Store :=
  let a := alloc σ [("method", JSVal.vstr m)]
  (a.1, objAssignH a.2 a.1 optsRef)

/-
Lemmas about the association-list object operations.
-/

theorem objGet_objSet_self (m : HeaderMap) (k : String) (v : HVal) :
    objGet (objSet m k v) k = some v := by
  induction m with
  | nil => simp [objSet, objGet]
  | cons p t ih =>
      by_cases h : p.1 = k
      · simp [objSet, objGet, h]
      · simp [objSet, objGet, h, ih]

theorem objGet_objSet_ne (m : HeaderMap) (k k' : String) (v : HVal) (h : k' ≠ k) :
    objGet (objSet m k' v) k = objGet m k := by
  induction m with
  | nil => simp [objSet, objGet, h]
  | cons p t ih =>
      by_cases hp : p.1 = k'
      · simp [objSet, objGet, hp, h]
      · by_cases hk : p.1 = k
        · simp [objSet, objGet, hp, hk, Ne.symm h]
        · simp [objSet, objGet, hp, hk, ih]

theorem objGet_objAssign_of_src_none (s : HeaderMap) :
    ∀ (t : HeaderMap) (k : String), objGet s k = none →
      objGet (objAssign t s) k = objGet t k := by
  induction s with
  | nil => intro t k _; rfl
  | cons p rest ih =>
      intro t k hs
      have hp : p.1 ≠ k := by
        intro hpk
        simp [objGet, hpk] at hs
      have hrest : objGet rest k = none := by
        simpa [objGet, hp] using hs
      calc objGet (objAssign (objSet t p.1 p.2) rest) k
          = objGet (objSet t p.1 p.2) k := ih (objSet t p.1 p.2) k hrest
        _ = objGet t k := objGet_objSet_ne t k p.1 p.2 hp

theorem objGet_none_of_not_mem (m : HeaderMap) (k : String)
    (h : k ∉ m.map Prod.fst) : objGet m k = none := by
  induction m with
  | nil => rfl
  | cons p t ih =>
      have hp : p.1 ≠ k := by
        intro hpk
        exact h (by simp [hpk])
      have ht : k ∉ t.map Prod.fst := fun hm => h (by simp [hm])
      simp [objGet, hp, ih ht]

theorem objGet_objAssign_of_src_some (s : HeaderMap) :
    ∀ (t : HeaderMap) (k : String) (v : HVal), (s.map Prod.fst).Nodup →
      objGet s k = some v → objGet (objAssign t s) k = some v := by
  induction s with
  | nil => intro t k v _ hs; simp [objGet] at hs
  | cons p rest ih =>
      intro t k v hnd hs
      have hnd' : (rest.map Prod.fst).Nodup := (List.nodup_cons.mp hnd).2
      by_cases hp : p.1 = k
      · have hv : p.2 = v := by simpa [objGet, hp] using hs
        have hmem : p.1 ∉ rest.map Prod.fst := (List.nodup_cons.mp hnd).1
        have hrest : objGet rest k = none :=
          objGet_none_of_not_mem rest k (hp ▸ hmem)
        calc objGet (objAssign (objSet t p.1 p.2) rest) k
            = objGet (objSet t p.1 p.2) k :=
              objGet_objAssign_of_src_none rest (objSet t p.1 p.2) k hrest
          _ = some v := by rw [hp, objGet_objSet_self, hv]
      · have hrest : objGet rest k = some v := by simpa [objGet, hp] using hs
        exact ih (objSet t p.1 p.2) k v hnd' hrest

theorem objGet_objDelete_self (m : HeaderMap) (k : String) :
    objGet (objDelete m k) k = none := by
  induction m with
  | nil => rfl
  | cons p t ih =>
      by_cases h : p.1 = k
      · simp [objDelete, h, ih]
      · simp [objDelete, objGet, h, ih]

theorem objDelete_of_not_mem (m : HeaderMap) (k : String)
    (h : objGet m k = none) : objDelete m k = m := by
  induction m with
  | nil => rfl
  | cons p t ih =>
      have hp : p.1 ≠ k := by
        intro hpk
        simp [objGet, hpk] at h
      have ht : objGet t k = none := by simpa [objGet, hp] using h
      simp [objDelete, hp, ih ht]

/-
Lemmas about string concatenation and the response-handler fold.
-/

theorem respStep_fold_data (parse : String → Option Json) (chunks : List String) :
    ∀ u : String,
      List.foldl (respStep parse) { update := u, settled := none }
        (chunks.map RespEvent.data)
        = { update := u ++ strConcat chunks, settled := none } := by
  induction chunks with
  | nil => intro u; simp [strConcat, String.append_empty]
  | cons c rest ih =>
      intro u
      simp only [List.map_cons, List.foldl_cons, respStep, strConcat]
      rw [ih (u ++ c), String.append_assoc]

/-
Lemmas about the store model.
-/

theorem readObj_append_lt (σ τ : Store) (r : Nat) (h : r < σ.length) :
    readObj (σ ++ τ) r = readObj σ r := by
  induction σ generalizing r with
  | nil => simp at h
  | cons o rest ih =>
      cases r with
      | zero => rfl
      | succ r' =>
          have : r' < rest.length := by simpa using h
          simpa [readObj] using ih r' this

theorem writeObj_length (σ : Store) (i : Nat) (o : HObj) :
    (writeObj σ i o).length = σ.length := by
  induction σ generalizing i with
  | nil => rfl
  | cons x rest ih =>
      cases i with
      | zero => rfl
      | succ i' => simpa [writeObj] using ih i'

theorem readObj_writeObj_ne (σ : Store) (i r : Nat) (o : HObj) (h : r ≠ i) :
    readObj (writeObj σ i o) r = readObj σ r := by
  induction σ generalizing i r with
  | nil => rfl
  | cons x rest ih =>
      cases i with
      | zero =>
          cases r with
          | zero => exact absurd rfl h
          | succ r' => rfl
      | succ i' =>
          cases r with
          | zero => rfl
          | succ r' =>
              have : r' ≠ i' := fun hr => h (by rw [hr])
              simpa [writeObj, readObj] using ih i' r' this

theorem objAssignH_length (σ : Store) (t s : Nat) :
    (objAssignH σ t s).length = σ.length := writeObj_length σ t _

theorem readObj_objAssignH_ne (σ : Store) (t s r : Nat) (h : r ≠ t) :
    readObj (objAssignH σ t s) r = readObj σ r :=
  readObj_writeObj_ne σ t r _ h

/-
Fixtures used by witnesses and counterexamples.
-/

/-- An instance with one stored header and no connection defaults. -/
def inst7 : Instance :=
  { headers := [("a", HVal.str "1")], requestOptions := { protocol := none, hostname := none } }

/-- An options object with an undefined path. -/
def opts10 : RequestOptions :=
  { protocol := none, hostname := none, port := none, path := none,
    method := some "POST", headers := none }

/-- Claim C4: for every completed response stream the promise resolves, and
the resolution value is a function of the accumulated body string alone —
the parsed value when JSON.parse succeeds on it, the raw string otherwise;
a parse failure never rejects. -/
theorem C4_resolution_from_body :
    ∀ (parse : String → Option Json) (chunks : List String),
      processResponse parse (chunks.map RespEvent.data ++ [RespEvent.streamEnd])
        = some (Settled.resolved (jsonOrRaw parse (strConcat chunks))) := by
  intro parse chunks
  unfold processResponse
  rw [List.foldl_append, respStep_fold_data]
  simp [respStep, settleOnce, String.empty_append]

/-- Claim C6: a path whose first character is a slash is passed through
unchanged; any other path gets exactly one slash prepended. -/
theorem C6_path_normalization : ∀ p : String,
    (p.data.head? = some '/' → effectivePath p = p) ∧
    (p.data.head? ≠ some '/' →
      effectivePath p = "/" ++ p ∧ (effectivePath p).data = '/' :: p.data) := by
  intro p
  constructor
  · intro h
    simp [effectivePath, h, String.empty_append]
  · intro h
    have he : effectivePath p = "/" ++ p := by simp [effectivePath, h]
    refine ⟨he, ?_⟩
    rw [he, String.data_append]
    rfl

/-- Witness for C6 at the spec's two scenario paths. -/
theorem C6_path_normalization_witness :
    effectivePath "/items" = "/items" ∧ (effectivePath "users").data = '/' :: "users".data :=
  ⟨(C6_path_normalization "/items").1 (by decide),
   ((C6_path_normalization "users").2 (by decide)).2⟩

/-- Claim C7: setHeader with an empty-string or undefined value leaves the
instance in exactly the state deleteHeader leaves it in; deleteHeader
removes the key when present and is a no-op when the key is absent. -/
theorem C7_setHeader_empty_deletes : ∀ (inst : Instance) (k : String),
    APIHelper.setHeader inst k (some "") = APIHelper.deleteHeader inst k ∧
    APIHelper.setHeader inst k none = APIHelper.deleteHeader inst k ∧
    objGet (APIHelper.deleteHeader inst k).headers k = none ∧
    (objGet inst.headers k = none → APIHelper.deleteHeader inst k = inst) := by
  intro inst k
  refine ⟨rfl, rfl, objGet_objDelete_self inst.headers k, ?_⟩
  intro h
  cases inst with
  | mk hs ro => simp [APIHelper.deleteHeader, objDelete_of_not_mem hs k h]

/-- Witness for C7 on a concrete instance: both forms agree with delete on a
present key, and deleting an absent key is the identity. -/
theorem C7_setHeader_empty_deletes_witness :
    APIHelper.setHeader inst7 "a" (some "") = APIHelper.deleteHeader inst7 "a" ∧
    APIHelper.setHeader inst7 "a" none = APIHelper.deleteHeader inst7 "a" ∧
    objGet (APIHelper.deleteHeader inst7 "a").headers "a" = none ∧
    APIHelper.deleteHeader inst7 "b" = inst7 :=
  ⟨(C7_setHeader_empty_deletes inst7 "a").1,
   (C7_setHeader_empty_deletes inst7 "a").2.1,
   (C7_setHeader_empty_deletes inst7 "a").2.2.1,
   (C7_setHeader_empty_deletes inst7 "b").2.2.2 (by decide)⟩

/-- Claim C10: with an undefined path the TypeError thrown while building
the descriptor is caught and becomes a rejection of the promise, and
nothing is sent. -/
theorem C10_undefined_path_rejects :
    ∀ (inst : Instance) (opts : RequestOptions) (data : Body),
      opts.path = none →
      APIHelper.request inst opts data = SyncOutcome.rejected JSError.typeError ∧
      ∀ (d : Descriptor) (w : Option String),
        APIHelper.request inst opts data ≠ SyncOutcome.sent d w := by
  intro inst opts data h
  have hreq : APIHelper.request inst opts data = SyncOutcome.rejected JSError.typeError := by
    simp [APIHelper.request, buildDescriptor, h]
  refine ⟨hreq, fun d w hc => ?_⟩
  rw [hreq] at hc
  exact SyncOutcome.noConfusion hc

/-- Witness for C10 at a concrete pathless call. -/
theorem C10_undefined_path_rejects_witness :
    APIHelper.request inst7 opts10 (Body.str "x") = SyncOutcome.rejected JSError.typeError :=
  (C10_undefined_path_rejects inst7 opts10 (Body.str "x") rfl).1

/-- An instance with no stored headers and no connection defaults. -/
def instEmpty : Instance :=
  { headers := [], requestOptions := { protocol := none, hostname := none } }

/-- A call passing its own method POST in requestOptions. -/
def c1opts : RequestOptions :=
  { protocol := none, hostname := none, port := none, path := some "/x",
    method := some "POST", headers := none }

/-- A call with no method field at all. -/
def c1noneopts : RequestOptions :=
  { protocol := none, hostname := none, port := none, path := some "u",
    method := none, headers := none }

/-- Claim C1 as stated is false: the GET wrapper does not override a
caller-supplied method. `Object.assign({method:'GET'}, requestOptions)` puts
the verb in the target, so the caller's POST overlays it and a POST goes
out. -/
theorem C1_counterexample :
    sentMethod (APIHelper.GET instEmpty c1opts (Body.str "")) = some "POST" ∧
    sentMethod (APIHelper.GET instEmpty c1opts (Body.str "")) ≠ some "GET" := by
  exact ⟨rfl, by decide⟩

/-- Claim C1 (amended): each wrapper supplies its verb only as a default.
It delegates to request with the caller's method when requestOptions has
one, and with the wrapper's own verb only when the caller supplied none; a
caller-supplied valid verb is the one sent, in every wrapper. -/
theorem C1_wrapper_method_default :
    ∀ (inst : Instance) (opts : RequestOptions) (data : Body),
      APIHelper.GET inst opts data
        = APIHelper.request inst { opts with method := some ((opts.method).getD "GET") } data ∧
      APIHelper.POST inst opts data
        = APIHelper.request inst { opts with method := some ((opts.method).getD "POST") } data ∧
      APIHelper.PATCH inst opts data
        = APIHelper.request inst { opts with method := some ((opts.method).getD "PATCH") } data ∧
      APIHelper.PUT inst opts data
        = APIHelper.request inst { opts with method := some ((opts.method).getD "PUT") } data ∧
      APIHelper.DELETE inst opts data
        = APIHelper.request inst { opts with method := some ((opts.method).getD "DELETE") } data ∧
      (∀ p : String, opts.path = some p → opts.method = none →
        sentMethod (APIHelper.GET inst opts data) = some "GET" ∧
        sentMethod (APIHelper.POST inst opts data) = some "POST" ∧
        sentMethod (APIHelper.PATCH inst opts data) = some "PATCH" ∧
        sentMethod (APIHelper.PUT inst opts data) = some "PUT" ∧
        sentMethod (APIHelper.DELETE inst opts data) = some "DELETE") ∧
      (∀ (p m : String), opts.path = some p → opts.method = some m →
        httpMethods.contains m = true →
        sentMethod (APIHelper.GET inst opts data) = some m ∧
        sentMethod (APIHelper.POST inst opts data) = some m ∧
        sentMethod (APIHelper.PATCH inst opts data) = some m ∧
        sentMethod (APIHelper.PUT inst opts data) = some m ∧
        sentMethod (APIHelper.DELETE inst opts data) = some m) := by
  intro inst opts data
  refine ⟨rfl, rfl, rfl, rfl, rfl, ?_, ?_⟩
  · intro p hp hm
    cases opts with
    | mk pr hn po pa me he =>
        dsimp at hp hm
        subst hp
        subst hm
        exact ⟨rfl, rfl, rfl, rfl, rfl⟩
  · intro p m hp hm hc
    cases opts with
    | mk pr hn po pa me he =>
        dsimp at hp hm
        subst hp
        subst hm
        have hmem : m ∈ httpMethods := by simpa using hc
        refine ⟨?_, ?_, ?_, ?_, ?_⟩ <;>
          simp [APIHelper.GET, APIHelper.POST, APIHelper.PATCH, APIHelper.PUT,
            APIHelper.DELETE, APIHelper.request, APIHelper.withDefaultMethod,
            buildDescriptor, sentMethod, effectiveMethod, hmem]

/-- Witness for the amended C1: with no caller method the GET wrapper sends
GET, and the caller's POST survives even through the PATCH wrapper. -/
theorem C1_wrapper_method_default_witness :
    sentMethod (APIHelper.GET instEmpty c1noneopts (Body.str "")) = some "GET" ∧
    sentMethod (APIHelper.PATCH instEmpty c1opts (Body.str "")) = some "POST" :=
  ⟨((C1_wrapper_method_default instEmpty c1noneopts (Body.str "")).2.2.2.2.2.1
      "u" rfl rfl).1,
   ((C1_wrapper_method_default instEmpty c1opts (Body.str "")).2.2.2.2.2.2
      "/x" "POST" rfl rfl rfl).2.2.1⟩

/-- A call with path present and no method field. -/
def c2opts : RequestOptions :=
  { protocol := none, hostname := none, port := none, path := some "/x",
    method := none, headers := none }

/-- A call with the literal method GET. -/
def c2getopts : RequestOptions :=
  { protocol := none, hostname := none, port := none, path := some "/x",
    method := some "GET", headers := none }

/-- Claim C2 as stated is false: with the method field absent the effective
method is GET (line 61), yet line 62 compares the raw method and adds
Content-Length, and line 78 writes the body. -/
theorem C2_counterexample :
    sentMethod (APIHelper.request instEmpty c2opts (Body.str "x")) = some "GET" ∧
    sentHeader (APIHelper.request instEmpty c2opts (Body.str "x")) "Content-Length"
      = some (HVal.num 1) ∧
    sentBody (APIHelper.request instEmpty c2opts (Body.str "x")) = some "x" := by
  exact ⟨rfl, rfl, rfl⟩

/-- Claim C2 (amended): the Content-Length-free base map and the suppressed
body happen exactly when requestOptions.method is literally the string GET;
for an absent or invalid method the request still goes out with method GET,
but with Content-Length in the base map and with the body written. -/
theorem C2_amended_body_gating :
    ∀ (inst : Instance) (opts : RequestOptions) (data : Body) (p : String),
      opts.path = some p →
      (opts.method = some "GET" →
        sentHeaders (APIHelper.request inst opts data)
          = some (resolvedHeaders [] inst.headers ((opts.headers).getD [])) ∧
        sentBody (APIHelper.request inst opts data) = none) ∧
      (opts.method ≠ some "GET" →
        sentHeaders (APIHelper.request inst opts data)
          = some (resolvedHeaders
              [("Content-Length", HVal.num (jsLength (serializeBody data)))]
              inst.headers ((opts.headers).getD [])) ∧
        sentBody (APIHelper.request inst opts data) = some (serializeBody data)) ∧
      ((∀ s : String, opts.method = some s → httpMethods.contains s = false) →
        sentMethod (APIHelper.request inst opts data) = some "GET") := by
  intro inst opts data p hp
  refine ⟨?_, ?_, ?_⟩
  · intro hm
    constructor <;>
      simp [APIHelper.request, buildDescriptor, hp, hm, sentHeaders, sentBody,
        baseHeaders, writtenBody]
  · intro hm
    constructor <;>
      simp [APIHelper.request, buildDescriptor, hp, hm, sentHeaders, sentBody,
        baseHeaders, writtenBody]
  · intro hall
    cases hme : opts.method with
    | none =>
        simp [APIHelper.request, buildDescriptor, hp, hme, sentMethod, effectiveMethod]
    | some s =>
        have hc : httpMethods.contains s = false := hall s hme
        have hmem : s ∉ httpMethods := by simpa using hc
        simp [APIHelper.request, buildDescriptor, hp, hme, sentMethod, effectiveMethod, hmem]

/-- Witness for the amended C2: a literal GET keeps the base map empty and
writes nothing; an absent method sends GET yet carries Content-Length and a
body. -/
theorem C2_amended_body_gating_witness :
    (sentHeaders (APIHelper.request instEmpty c2getopts (Body.str "x"))
      = some (resolvedHeaders [] instEmpty.headers []) ∧
     sentBody (APIHelper.request instEmpty c2getopts (Body.str "x")) = none) ∧
    (sentHeaders (APIHelper.request instEmpty c2opts (Body.str "x"))
      = some (resolvedHeaders [("Content-Length", HVal.num 1)] instEmpty.headers []) ∧
     sentBody (APIHelper.request instEmpty c2opts (Body.str "x")) = some "x") ∧
    sentMethod (APIHelper.request instEmpty c2opts (Body.str "x")) = some "GET" :=
  ⟨(C2_amended_body_gating instEmpty c2getopts (Body.str "x") "/x" rfl).1 rfl,
   (C2_amended_body_gating instEmpty c2opts (Body.str "x") "/x" rfl).2.1 (by decide),
   (C2_amended_body_gating instEmpty c2opts (Body.str "x") "/x" rfl).2.2
     (fun s h => Option.noConfusion h)⟩

/-- The structured body whose serialization contains a non-ASCII character. -/
def c3data : Json := Json.obj [("a", Json.str "é")]

/-- A POST call carrying the structured body. -/
def c3opts : RequestOptions :=
  { protocol := none, hostname := none, port := none, path := some "/x",
    method := some "POST", headers := none }

/-- Claim C3: the transmitted body is indeed the JSON serialization, but the
Content-Length placed in the base map is `data.length` — the UTF-16
code-unit count (9 here) — while the UTF-8 byte count the transport writes
is 10, so the header understates the body by one byte on this input. -/
theorem C3_content_length_bug :
    serializeBody (Body.jsonVal c3data) = "\x7b\"a\":\"é\"\x7d" ∧
    sentBody (APIHelper.request instEmpty c3opts (Body.jsonVal c3data))
      = some "\x7b\"a\":\"é\"\x7d" ∧
    sentHeader (APIHelper.request instEmpty c3opts (Body.jsonVal c3data)) "Content-Length"
      = some (HVal.num 9) ∧
    jsLength "\x7b\"a\":\"é\"\x7d" = 9 ∧
    utf8Length "\x7b\"a\":\"é\"\x7d" = 10 := by
  exact ⟨rfl, rfl, rfl, rfl, rfl⟩

/-- An instance whose defaults also bind Content-Length. -/
def inst5 : Instance :=
  { headers := [("Content-Length", HVal.str "7")],
    requestOptions := { protocol := none, hostname := none } }

/-- A POST call whose own headers also bind Content-Length. -/
def opts5a : RequestOptions :=
  { protocol := none, hostname := none, port := none, path := some "/x",
    method := some "POST", headers := some [("Content-Length", HVal.str "9")] }

/-- A POST call whose own headers do not bind Content-Length. -/
def opts5b : RequestOptions :=
  { protocol := none, hostname := none, port := none, path := some "/x",
    method := some "POST", headers := some [("X-Other", HVal.str "z")] }

/-- Claim C5: in the resolved header map of any request, a key bound in all
three layers gets the requestOptions.headers value, and a key bound in the
base map and the instance defaults but not per call gets the
instance-default value. -/
theorem C5_header_precedence :
    ∀ (inst : Instance) (opts : RequestOptions) (dataStr p k : String) (vb vi vc : HVal),
      opts.path = some p →
      (inst.headers.map Prod.fst).Nodup →
      ((((opts.headers).getD []).map Prod.fst)).Nodup →
      objGet (baseHeaders opts.method dataStr) k = some vb →
      objGet inst.headers k = some vi →
      (objGet ((opts.headers).getD []) k = some vc →
        Except.map (fun d => objGet d.headers k) (buildDescriptor inst opts dataStr)
          = Except.ok (some vc)) ∧
      (objGet ((opts.headers).getD []) k = none →
        Except.map (fun d => objGet d.headers k) (buildDescriptor inst opts dataStr)
          = Except.ok (some vi)) := by
  intro inst opts dataStr p k vb vi vc hp hndI hndC hb hi
  constructor
  · intro hc
    simp only [buildDescriptor, hp, Except.map, resolvedHeaders]
    rw [objGet_objAssign_of_src_some _ _ _ _ hndC hc]
  · intro hc
    simp only [buildDescriptor, hp, Except.map, resolvedHeaders]
    rw [objGet_objAssign_of_src_none _ _ _ hc,
      objGet_objAssign_of_src_some _ _ _ _ hndI hi]

/-- Witness for C5: with Content-Length bound in all three layers the
per-call value 9 wins; without a per-call binding the instance default 7
wins over the computed base value. -/
theorem C5_header_precedence_witness :
    Except.map (fun d => objGet d.headers "Content-Length")
      (buildDescriptor inst5 opts5a "x") = Except.ok (some (HVal.str "9")) ∧
    Except.map (fun d => objGet d.headers "Content-Length")
      (buildDescriptor inst5 opts5b "x") = Except.ok (some (HVal.str "7")) :=
  ⟨(C5_header_precedence inst5 opts5a "x" "/x" "Content-Length"
      (HVal.num 1) (HVal.str "7") (HVal.str "9")
      rfl (by decide) (by decide) rfl rfl).1 rfl,
   (C5_header_precedence inst5 opts5b "x" "/x" "Content-Length"
      (HVal.num 1) (HVal.str "7") (HVal.str "9")
      rfl (by decide) (by decide) rfl rfl).2 rfl⟩

/-- An instance whose default protocol is https. -/
def instHttps : Instance :=
  { headers := [], requestOptions := { protocol := some "https", hostname := none } }

/-- A call whose own protocol field is the empty string. -/
def c9opts : RequestOptions :=
  { protocol := some "", hostname := none, port := none, path := some "/x",
    method := none, headers := none }

/-- A call whose own protocol field is the string http. -/
def c9httpopts : RequestOptions :=
  { protocol := some "http", hostname := none, port := none, path := some "/x",
    method := none, headers := none }

/-- Claim C9 as stated is false: with requestOptions.protocol present but
equal to the empty string the claim's resolved protocol is that string, not
https, so it predicts the plain transport; but `||` treats the empty string
as falsy, falls back to the instance default https, and the secure
transport is selected. -/
theorem C9_counterexample :
    Except.map Descriptor.transport (buildDescriptor instHttps c9opts "")
      = Except.ok Transport.https ∧
    (some "" : Option String) ≠ some "https" := by
  exact ⟨rfl, by decide⟩

/-- Claim C9 (amended): the secure transport is selected exactly when the
first JS-truthy of requestOptions.protocol and the instance default equals
https; a present-but-empty protocol defers to the instance default like an
absent one, every other non-https value silently selects the plain
transport, and no protocol value makes the build fail. -/
theorem C9_transport_selection :
    ∀ (inst : Instance) (opts : RequestOptions) (dataStr p : String),
      opts.path = some p →
      Except.map Descriptor.transport (buildDescriptor inst opts dataStr)
        = Except.ok
          (if jsTruthy opts.protocol then
            (if opts.protocol = some "https" then Transport.https else Transport.http)
           else
            (if inst.requestOptions.protocol = some "https" then Transport.https
             else Transport.http)) := by
  intro inst opts dataStr p hp
  simp only [buildDescriptor, hp, Except.map, transportOf, jsOrStr]
  by_cases ht : jsTruthy opts.protocol <;> simp [ht]

/-- Witness for the amended C9: an explicit http protocol beats the https
instance default and picks the plain transport. -/
theorem C9_transport_selection_witness :
    Except.map Descriptor.transport (buildDescriptor instHttps c9httpopts "")
      = Except.ok Transport.http :=
  C9_transport_selection instHttps c9httpopts "" "/x" rfl

/-
Frame lemmas for the store model: every write performed while one request
descriptor is built lands in freshly allocated objects.
-/

theorem mergedStep1_length (σ : Store) (inst : InstRefs) (optsRef : Nat) (dataStr : String) :
    (mergedStep1 σ inst optsRef dataStr).length = σ.length + 1 := by
  unfold mergedStep1
  rw [objAssignH_length]
  simp

theorem readObj_mergedStep1_lt (σ : Store) (inst : InstRefs) (optsRef : Nat)
    (dataStr : String) (r : Nat) (hr : r < σ.length) :
    readObj (mergedStep1 σ inst optsRef dataStr) r = readObj σ r := by
  unfold mergedStep1
  rw [readObj_objAssignH_ne _ _ _ _ (Nat.ne_of_lt hr), readObj_append_lt _ _ _ hr]

theorem mergedHeadersStore_length (σ : Store) (inst : InstRefs) (optsRef : Nat)
    (dataStr : String) :
    (mergedHeadersStore σ inst optsRef dataStr).length = σ.length + 1 := by
  unfold mergedHeadersStore
  split
  · rw [objAssignH_length, mergedStep1_length]
  · rw [mergedStep1_length]

theorem readObj_mergedHeadersStore_lt (σ : Store) (inst : InstRefs) (optsRef : Nat)
    (dataStr : String) (r : Nat) (hr : r < σ.length) :
    readObj (mergedHeadersStore σ inst optsRef dataStr) r = readObj σ r := by
  unfold mergedHeadersStore
  split
  · rw [readObj_objAssignH_ne _ _ _ _ (Nat.ne_of_lt hr)]
    exact readObj_mergedStep1_lt σ inst optsRef dataStr r hr
  · exact readObj_mergedStep1_lt σ inst optsRef dataStr r hr

theorem constructH_refs (σ : Store) (ro h : Option Nat) :
    (constructH σ ro h).1.headers = σ.length ∧
    (constructH σ ro h).1.requestOptions = σ.length + 1 := by
  cases h <;> cases ro <;> simp [constructH, alloc, objAssignH_length]

/-- Claim C8: building a request descriptor, building a wrapper's merged
options object, and constructing an instance never write into any
pre-existing object. The per-call maps live in fresh store cells, the
constructor's copies are fresh cells distinct from the caller's arguments,
and overwriting any pre-existing object afterwards cannot change what the
instance's references read. -/
theorem C8_no_instance_mutation :
    (∀ (σ : Store) (inst : InstRefs) (optsRef : Nat) (dataStr : String) (r : Nat),
      r < σ.length →
      readObj (buildDescriptorH σ inst optsRef dataStr).2 r = readObj σ r) ∧
    (∀ (σ : Store) (m : String) (optsRef r : Nat),
      r < σ.length →
      readObj (wrapperOptionsH σ m optsRef).2 r = readObj σ r) ∧
    (∀ (σ : Store) (ro h : Option Nat),
      (constructH σ ro h).1.headers = σ.length ∧
      (constructH σ ro h).1.requestOptions = σ.length + 1) ∧
    (∀ (σ : Store) (ro h : Option Nat) (r : Nat) (o : HObj),
      r < σ.length →
      readObj (writeObj (constructH σ ro h).2 r o) (constructH σ ro h).1.headers
        = readObj (constructH σ ro h).2 (constructH σ ro h).1.headers ∧
      readObj (writeObj (constructH σ ro h).2 r o) (constructH σ ro h).1.requestOptions
        = readObj (constructH σ ro h).2 (constructH σ ro h).1.requestOptions) := by
  refine ⟨?_, ?_, fun σ ro h => constructH_refs σ ro h, ?_⟩
  · intro σ inst optsRef dataStr r hr
    unfold buildDescriptorH
    split
    · dsimp only
      rw [readObj_append_lt]
      · exact readObj_mergedHeadersStore_lt σ inst optsRef dataStr r hr
      · rw [mergedHeadersStore_length]
        omega
    · rfl
  · intro σ m optsRef r hr
    simp only [wrapperOptionsH, alloc]
    rw [readObj_objAssignH_ne _ _ _ _ (Nat.ne_of_lt hr), readObj_append_lt _ _ _ hr]
  · intro σ ro h r o hr
    have h1 := (constructH_refs σ ro h).1
    have h2 := (constructH_refs σ ro h).2
    constructor
    · rw [h1, readObj_writeObj_ne _ _ _ _ (Ne.symm (Nat.ne_of_lt hr))]
    · rw [h2, readObj_writeObj_ne _ _ _ _ (by omega)]

/-- A concrete store: the instance's header object (0), its
connection-default object (1), the caller's options object (2) whose
headers field refers to the caller's header object (3). -/
def store8 : Store :=
  [[("A", JSVal.vstr "1")],
   [("protocol", JSVal.vstr "https")],
   [("path", JSVal.vstr "u"), ("headers", JSVal.vref 3)],
   [("K", JSVal.vstr "v")]]

/-- Witness for C8 on the concrete store: the request build leaves the
instance header object intact, the wrapper leaves the caller's options
intact, the constructed copies are fresh, and mutating the caller's header
object afterwards does not reach the instance's copy. -/
theorem C8_no_instance_mutation_witness :
    readObj (buildDescriptorH store8 { headers := 0, requestOptions := 1 } 2 "x").2 0
      = readObj store8 0 ∧
    readObj (wrapperOptionsH store8 "GET" 2).2 2 = readObj store8 2 ∧
    (constructH store8 (some 2) (some 3)).1.headers = store8.length ∧
    readObj (writeObj (constructH store8 (some 2) (some 3)).2 3 [])
        (constructH store8 (some 2) (some 3)).1.headers
      = readObj (constructH store8 (some 2) (some 3)).2
          (constructH store8 (some 2) (some 3)).1.headers :=
  ⟨C8_no_instance_mutation.1 store8 { headers := 0, requestOptions := 1 } 2 "x" 0 (by decide),
   C8_no_instance_mutation.2.1 store8 "GET" 2 2 (by decide),
   (C8_no_instance_mutation.2.2.1 store8 (some 2) (some 3)).1,
   (C8_no_instance_mutation.2.2.2 store8 (some 2) (some 3) 3 [] (by decide)).1⟩
